import Mathlib

set_option maxHeartbeats 1000000

/-
Shallow embedding of the voice-recorder repository:
  - healthcheck.js                      (health probe)
  - src/app/api/upload/route.js         (two POST variants: storage and transcription)
  - the client page component           (recording / upload state machine)

JavaScript string primitives used by the source (String.prototype.startsWith,
the regex replace of colons and periods, substring from lastIndexOf) are
embedded as executable character-list functions with the same semantics.
JSON objects are embedded as ordered field-insertion lists: an object literal
or spread appends bindings in evaluation order, and field lookup returns the
last binding for a key, exactly as in JavaScript object construction.
-/

namespace VoiceRecorder

/-- JSON values appearing in the request and response bodies the claims
inspect (booleans, numbers, strings). -/
inductive JValue : Type where
  | jbool : Bool → JValue
  | jnum : Int → JValue
  | jstr : String → JValue
deriving DecidableEq, Repr

/-- A JSON object, as an ordered list of field bindings. -/
abbrev JObject := List (String × JValue)

/-- Lookup of a field in a JSON object: the LAST binding for the key wins,
matching JavaScript object-literal and spread semantics where later
assignments overwrite earlier ones. -/
def getField : JObject → String → Option JValue
  | [], _ => none
  | p :: rest, k =>
    match getField rest k with
    | some v => some v
    | none => if p.1 = k then some p.2 else none

/-- Embedding of JavaScript String.prototype.startsWith, executed on the
character list of the string. -/
def jsStartsWith (s pre : String) : Bool :=
  pre.data.isPrefixOf s.data

/-- Embedding of the source expression now.toISOString().replace(/[:.]/g, "-"):
every colon and every period character is replaced by a hyphen. -/
def replaceColonsDots (s : String) : String :=
  String.mk (s.data.map (fun c => if c = ':' ∨ c = '.' then '-' else c))

/-! ## Health probe: healthcheck.js -/

/-- The options object of healthcheck.js. -/
structure HttpOptions where
  host : String
  port : Nat
  timeout : Nat
  path : String
  method : String
deriving DecidableEq, Repr

/-- Embedding of the options constant in healthcheck.js lines 3 to 9. -/
def healthcheckOptions : HttpOptions :=
  { host := "localhost", port := 3000, timeout := 2000, path := "/", method := "GET" }

/-- Events the issued request can deliver to the script: an HTTP response
with a status code, an error event on the request (connection refused,
unreachable host, connect failure), or the idle socket timeout event that
the timeout option arms after 2000 ms. -/
inductive ProbeEvent : Type where
  | response : Nat → ProbeEvent
  | connError : ProbeEvent
  | socketTimeout : ProbeEvent
deriving DecidableEq, Repr

/-- Exit behaviour of healthcheck.js per event. The script calls
process.exit only inside the response callback (lines 11 to 18: code 0 for
status 200, code 1 otherwise) and the error callback (lines 20 to 23:
code 1). It registers NO listener for the timeout event, and in Node a
ClientRequest socket timeout only emits the event without destroying the
request, so on a pure idle timeout the script performs no exit at all:
that event maps to none. -/
def probeExit : ProbeEvent → Option Nat
  | .response s => if s = 200 then some 0 else some 1
  | .connError => some 1
  | .socketTimeout => none

/-! ## Upload Relay: src/app/api/upload/route.js, both POST variants -/

/-- The file value extracted from the multipart form data: its name, its
declared media type, and its size in bytes. -/
structure UploadFile where
  name : String
  type : String
  size : Nat
deriving DecidableEq, Repr

/-- An upload request: formData.get of the file field, null when absent. -/
structure UploadRequest where
  file : Option UploadFile
deriving DecidableEq, Repr

/-- Result of running a handler: HTTP status, JSON body, the list of file
names written to local storage, and whether the outbound request to the
external transcription endpoint was issued. -/
structure HandlerResult where
  status : Nat
  body : JObject
  writes : List String
  forwarded : Bool
deriving DecidableEq, Repr

/-- Embedding of the storage-variant POST handler (route.js lines 5 to 45):
reject when no file, reject when the declared type is not audio, otherwise
write the bytes under a timestamp-derived name ending in ".webm" and
answer success. The current time enters as its ISO string. -/
def POST_storage (req : UploadRequest) (nowIso : String) : HandlerResult :=
  match req.file with
  | none =>
    { status := 400, body := [("error", .jstr "No file uploaded")],
      writes := [], forwarded := false }
  | some file =>
    if !jsStartsWith file.type "audio/" then
      { status := 400, body := [("error", .jstr "Invalid file type")],
        writes := [], forwarded := false }
    else
      let fileName := replaceColonsDots nowIso ++ ".webm"
      { status := 200,
        body := [("success", .jbool true),
                 ("message", .jstr "File uploaded successfully"),
                 ("fileName", .jstr fileName),
                 ("fileUrl", .jstr ("/recordings/" ++ fileName))],
        writes := [fileName], forwarded := false }

/-- Embedding of the storage-variant catch branch (route.js lines 41 to 44),
reached when an unexpected exception escapes the try block. -/
def POST_storage_catch : HandlerResult :=
  { status := 500, body := [("error", .jstr "Upload failed")],
    writes := [], forwarded := false }

/-- Result of await response.json() on the external response: a parsed
object, or a rejection carrying the parse error message. -/
inductive JsonParse : Type where
  | parsed : JObject → JsonParse
  | malformed : String → JsonParse
deriving DecidableEq, Repr

/-- Outcome of the fetch to the external transcription endpoint: the fetch
promise rejects with an error message, or a response arrives with a status
code and a body. -/
inductive FetchOutcome : Type where
  | networkError : String → FetchOutcome
  | response : Nat → JsonParse → FetchOutcome
deriving DecidableEq, Repr

/-- The 25 MB ceiling of the transcription variant (route.js line 72). -/
def maxSize : Nat := 25 * 1024 * 1024

/-- Embedding of response.ok: status in the 2xx range. -/
def responseOk (status : Nat) : Bool :=
  decide (200 ≤ status ∧ status ≤ 299)

/-- Embedding of the thrown message for a non-ok external response
(route.js line 91): errorData.detail when it is a non-empty string,
otherwise the fallback naming the status. The external interface declares
detail as a string field when present. -/
def pythonErrorMessage (status : Nat) (errorData : JObject) : String :=
  match getField errorData "detail" with
  | some (.jstr s) => if s.isEmpty then "Python API error: " ++ toString status else s
  | _ => "Python API error: " ++ toString status

/-- Embedding of the transcription-variant catch branch (route.js lines
102 to 113): a 500 response whose body reports the caught message, with
the fallback when that message is empty. -/
def catchEnvelope (msg : String) (forwarded : Bool) : HandlerResult :=
  { status := 500,
    body := [("success", .jbool false),
             ("error", .jstr (if msg.isEmpty then "Transcription failed" else msg)),
             ("message", .jstr "Failed to process audio file")],
    writes := [], forwarded := forwarded }

/-- Embedding of the transcription-variant POST handler (route.js lines
51 to 113): validate presence, audio type and the 25 MB ceiling, then
forward to the external endpoint; a non-ok or malformed response throws
into the catch branch, and an ok parsed body t is relayed as the literal
with success true, then the spread of t, then the message field. -/
def POST_transcribe (req : UploadRequest) (outcome : FetchOutcome) : HandlerResult :=
  match req.file with
  | none =>
    { status := 400,
      body := [("success", .jbool false), ("error", .jstr "No file uploaded")],
      writes := [], forwarded := false }
  | some file =>
    if !jsStartsWith file.type "audio/" then
      { status := 400,
        body := [("success", .jbool false),
                 ("error", .jstr "Invalid file type. Only audio files are allowed.")],
        writes := [], forwarded := false }
    else if maxSize < file.size then
      { status := 400,
        body := [("success", .jbool false),
                 ("error", .jstr "File too large. Maximum size is 25MB.")],
        writes := [], forwarded := false }
    else
      match outcome with
      | .networkError msg => catchEnvelope msg true
      | .response status parse =>
        if responseOk status then
          match parse with
          | .parsed t =>
            { status := 200,
              body := ("success", .jbool true) :: t
                        ++ [("message", .jstr "File transcribed successfully")],
              writes := [], forwarded := true }
          | .malformed msg => catchEnvelope msg true
        else
          let errorData := match parse with | .parsed t => t | .malformed _ => []
          catchEnvelope (pythonErrorMessage status errorData) true

/-- A fetch outcome counts as a downstream failure when the fetch rejects,
the response status is not 2xx, or the body fails to parse. -/
def fetchFailed : FetchOutcome → Bool
  | .networkError _ => true
  | .response status (.parsed _) => !responseOk status
  | .response _ (.malformed _) => true

/-! ## Client page: filename helpers -/

/-- Embedding of the extension computation in handleFileUpload (page lines
88 to 90): the substring of the file name from its last period when the
name contains one, otherwise the inferred ".mp3". -/
def extOf (name : String) : String :=
  if name.data.contains '.' then
    String.mk ('.' :: (name.data.reverse.takeWhile (fun c => c ≠ '.')).reverse)
  else ".mp3"

/-- Embedding of generateDateFilename (page lines 235 to 239): the ISO
timestamp with colons and periods replaced by hyphens, suffixed with the
given extension. The current time enters as its ISO string. -/
def generateDateFilename (nowIso : String) (ext : String) : String :=
  replaceColonsDots nowIso ++ ext

/-! ## Client page: recording state machine -/

/-- The 300-second recording ceiling (page line 27). -/
def maxDuration : Nat := 5 * 60

/-- Status of the recording session, as rendered by the page: idle before
any artifact exists, recording, paused, and stopped with a finalized
artifact. isRecording and isPaused in the source encode recording as
isRecording without isPaused and paused as both flags set. -/
inductive RecStatus : Type where
  | idle : RecStatus
  | recording : RecStatus
  | paused : RecStatus
  | stopped : RecStatus
deriving DecidableEq, Repr

/-- The recording session state: status, elapsed seconds (the duration
state variable), and whether the one-second interval timer is registered. -/
structure RecState where
  status : RecStatus
  duration : Nat
  timerOn : Bool
deriving DecidableEq, Repr

/-- The initial page state: idle, zero elapsed seconds, no timer. -/
def recInit : RecState := { status := .idle, duration := 0, timerOn := false }

/-- The user and timer events driving the recording session. -/
inductive RecEvent : Type where
  | start : RecEvent
  | pause : RecEvent
  | resume : RecEvent
  | stop : RecEvent
  | tick : RecEvent
deriving DecidableEq, Repr

/-- Embedding of stopRecording (page lines 207 to 216) together with the
onstop callback it triggers (lines 152 to 163): only effective from
recording or paused, where it finalizes the artifact, moves to stopped,
releases the capture stream and clears the interval. -/
def stopRecording (s : RecState) : RecState :=
  if s.status = .recording ∨ s.status = .paused then
    { s with status := .stopped, timerOn := false }
  else s

/-- One step of the recording state machine, read off the source handlers:
start (lines 126 to 181, enabled unless actively recording) resets the
duration to zero, enters recording and registers the interval; pause and
resume (lines 183 to 205) are guarded on the recorder state and clear or
re-register the interval; stop is stopRecording; tick (the interval
callback, lines 170 to 176) increments the duration and invokes
stopRecording when the incremented value reaches the ceiling. Disabled
events leave the state unchanged. -/
def recStep (s : RecState) : RecEvent → RecState
  | .start =>
    if s.status = .recording then s
    else { status := .recording, duration := 0, timerOn := true }
  | .pause =>
    if s.status = .recording then { s with status := .paused, timerOn := false }
    else s
  | .resume =>
    if s.status = .paused then { s with status := .recording, timerOn := true }
    else s
  | .stop => stopRecording s
  | .tick =>
    if s.timerOn then
      let next := s.duration + 1
      if maxDuration ≤ next then { stopRecording s with duration := next }
      else { s with duration := next }
    else s

/-- States reachable from the initial page state under the step function. -/
inductive RecReachable : RecState → Prop where
  | init : RecReachable recInit
  | step : ∀ {s : RecState} (e : RecEvent), RecReachable s → RecReachable (recStep s e)

/-! ## Client page: transcription workflow state -/

/-- The slice of page state driving the upload and transcribe workflow:
the isTranscribing flag, whether a recorded blob artifact exists
(blobRef.current), and the transcription and error render fields. -/
structure UIState where
  isTranscribing : Bool
  hasBlob : Bool
  transcription : Option JObject
  transcriptionError : Option String
deriving DecidableEq, Repr

/-- Embedding of the synchronous prefix of handleFileUpload (page lines
75 to 100), up to the await of the relay call: a missing file returns
early, an oversized file alerts and returns, and otherwise the
isTranscribing flag is set, stale results are cleared and the relay call
is issued. The returned Bool records whether a relay call was started.
The function consults only the file, never the isTranscribing flag. -/
def handleFileUpload (st : UIState) (file : Option UploadFile) : UIState × Bool :=
  match file with
  | none => (st, false)
  | some f =>
    if maxSize < f.size then (st, false)
    else
      ({ st with isTranscribing := true, transcription := none,
                 transcriptionError := none }, true)

/-- Embedding of handleDrop (page lines 60 to 73): the first dropped file
is passed to handleFileUpload when its declared type is audio, otherwise
an error message is set. The drop zone carries no disabled attribute and
the handler performs no isTranscribing check. -/
def handleDrop (st : UIState) (files : List UploadFile) : UIState × Bool :=
  match files with
  | [] => (st, false)
  | f :: _ =>
    if jsStartsWith f.type "audio/" then handleFileUpload st (some f)
    else
      let msg := "Please drop an audio file (MP3, WAV, etc.)"
      ({ st with transcriptionError := some msg }, false)

/-- Embedding of uploadRecording (page lines 253 to 291) up to the await:
without a blob it alerts and returns, otherwise it sets isTranscribing,
clears stale results and issues the relay call. -/
def uploadRecording (st : UIState) : UIState × Bool :=
  if !st.hasBlob then (st, false)
  else
    ({ st with isTranscribing := true, transcription := none,
               transcriptionError := none }, true)

/-- The Transcribe button (page lines 414 to 417): disabled while no blob
exists or a transcription is in flight; when enabled, clicking runs
uploadRecording. -/
def transcribeButtonClick (st : UIState) : UIState × Bool :=
  if st.hasBlob ∧ !st.isTranscribing then uploadRecording st
  else (st, false)

/-- The hidden file input (page lines 365 to 373, handler lines 294 to
299): the input carries disabled while isTranscribing is set; when
enabled, a selected file is passed to handleFileUpload. -/
def fileInputSelect (st : UIState) (file : Option UploadFile) : UIState × Bool :=
  if st.isTranscribing then (st, false)
  else
    match file with
    | some f => handleFileUpload st (some f)
    | none => (st, false)

/-- The reply the relay call resolves with, as consumed by the page:
a body whose success field is truthy, a body whose success field is falsy
carrying an optional error string, or a rejected fetch. -/
inductive RelayReply : Type where
  | success : JObject → RelayReply
  | failure : Option String → RelayReply
  | networkError : RelayReply
deriving DecidableEq, Repr

/-- Embedding of the response handling and finally block shared by
handleFileUpload (page lines 102 to 123) and uploadRecording (lines 269
to 291): a success reply stores the transcription, a failure reply or a
rejected fetch stores an error message, and the finally block clears
isTranscribing on every path. -/
def relayComplete (st : UIState) (r : RelayReply) : UIState :=
  match r with
  | .success d => { st with transcription := some d, isTranscribing := false }
  | .failure e =>
    { st with transcriptionError := some (e.getD "Transcription failed"),
              isTranscribing := false }
  | .networkError =>
    { st with transcriptionError := some "Failed to connect to transcription service",
              isTranscribing := false }

/-! ## Helper lemmas -/

theorem getField_cons (p : String × JValue) (rest : JObject) (k : String) :
    getField (p :: rest) k =
      match getField rest k with
      | some v => some v
      | none => if p.1 = k then some p.2 else none := rfl

theorem getField_append (xs ys : JObject) (k : String) :
    getField (xs ++ ys) k =
      match getField ys k with
      | some v => some v
      | none => getField xs k := by
  induction xs with
  | nil =>
    simp only [List.nil_append]
    cases h : getField ys k <;> simp [getField, h]
  | cons p rest ih =>
    simp only [List.cons_append, getField_cons, ih]
    cases h : getField ys k <;> cases h2 : getField rest k <;> simp [h, h2]

/-- Fields of the catch-branch envelope of the transcription variant. -/
theorem catchEnvelope_fields (msg : String) (fwd : Bool) :
    (catchEnvelope msg fwd).status = 500 ∧
    getField (catchEnvelope msg fwd).body "success" = some (.jbool false) ∧
    getField (catchEnvelope msg fwd).body "error" =
      some (.jstr (if msg.isEmpty then "Transcription failed" else msg)) :=
  ⟨rfl, rfl, rfl⟩

/-- Reduction of the transcription handler on a valid audio request with an
ok parsed external response: the success envelope literal. -/
theorem POST_transcribe_ok (req : UploadRequest) (f : UploadFile) (status : Nat)
    (t : JObject) (hf : req.file = some f)
    (ht : jsStartsWith f.type "audio/" = true) (hs : f.size ≤ maxSize)
    (hok : responseOk status = true) :
    POST_transcribe req (.response status (.parsed t)) =
      { status := 200,
        body := ("success", .jbool true) :: t
                  ++ [("message", .jstr "File transcribed successfully")],
        writes := [], forwarded := true } := by
  simp [POST_transcribe, hf, ht, not_lt.mpr hs, hok]

/-- Lookup of the success field in the relayed envelope when the external
body has no success binding. -/
theorem getField_envelope_success_none (t : JObject) (m : JValue)
    (h : getField t "success" = none) :
    getField (("success", JValue.jbool true) :: t ++ [("message", m)]) "success"
      = some (.jbool true) := by
  rw [getField_append]
  simp [getField, h]

/-- Lookup of the success field in the relayed envelope when the external
body itself binds success: the spread makes the external value win. -/
theorem getField_envelope_success_some (t : JObject) (m v : JValue)
    (h : getField t "success" = some v) :
    getField (("success", JValue.jbool true) :: t ++ [("message", m)]) "success"
      = some v := by
  rw [getField_append]
  simp [getField, h]

/-- Lookup of the text field in the relayed envelope: the external value
passes through unchanged. -/
theorem getField_envelope_text (t : JObject) (m v : JValue)
    (h : getField t "text" = some v) :
    getField (("success", JValue.jbool true) :: t ++ [("message", m)]) "text"
      = some v := by
  rw [getField_append]
  simp [getField, h]

/-! ## Shared concrete inputs -/

/-- An audio file larger than the 25 MB ceiling. -/
def oversizedAudio : UploadFile :=
  { name := "big.webm", type := "audio/webm", size := 26214401 }

/-- A small well-formed audio file. -/
def goodAudio : UploadFile := { name := "a.mp3", type := "audio/mpeg", size := 1000 }

/-- A small file whose declared media type is not audio. -/
def textFile : UploadFile := { name := "notes.txt", type := "text/plain", size := 5 }

/-- A small audio file whose original name carries the .mp3 extension. -/
def mp3File : UploadFile := { name := "song.mp3", type := "audio/mpeg", size := 1000 }

/-- A sample ISO timestamp for the current time. -/
def isoSample : String := "2024-01-01T00:00:00.000Z"

/-- An external 2xx body that itself binds a success field. -/
def sneakyBody : JObject := [("text", .jstr "hello"), ("success", .jbool false)]

/-- A page state with an artifact present and a transcription in flight. -/
def busyState : UIState :=
  { isTranscribing := true, hasBlob := true, transcription := none,
    transcriptionError := none }

/-! ## Claims -/

/-- C8 counterexample: the claim says a timeout makes the probe exit with
code 1, but healthcheck.js registers no listener for the timeout event and
calls process.exit only in the response and error callbacks, so the idle
socket timeout produces no exit code at all. -/
theorem c8_counterexample :
    probeExit ProbeEvent.socketTimeout = none ∧
    probeExit ProbeEvent.socketTimeout ≠ some 1 := by decide

/-- C8 (amended): the health probe issues one HTTP GET with a fixed
2-second timeout and exits with code 0 exactly when the response status is
200; any other status and any request error exit with code 1; the idle
socket timeout is unhandled and produces no exit. -/
theorem c8_probe_exit_codes (s : Nat) :
    healthcheckOptions.method = "GET" ∧
    healthcheckOptions.timeout = 2000 ∧
    (probeExit (ProbeEvent.response s) = some 0 ↔ s = 200) ∧
    (s ≠ 200 → probeExit (ProbeEvent.response s) = some 1) ∧
    probeExit ProbeEvent.connError = some 1 := by
  refine ⟨rfl, rfl, ?_, ?_, rfl⟩
  · by_cases h : s = 200 <;> simp [probeExit, h]
  · intro h
    simp [probeExit, h]

/-- C8 witness: against HTTP 404 the probe exits with code 1. -/
theorem c8_probe_exit_codes_witness :
    probeExit (ProbeEvent.response 404) = some 1 :=
  (c8_probe_exit_codes 404).2.2.2.1 (by decide)

/-- C3: a present file whose declared media type does not start with the
audio prefix is rejected with status 400 by both handler variants, with no
file written and no forward to the external transcription endpoint. -/
theorem c3_nonaudio_rejected (req : UploadRequest) (f : UploadFile)
    (o : FetchOutcome) (nowIso : String) (hf : req.file = some f)
    (ht : jsStartsWith f.type "audio/" = false) :
    (POST_storage req nowIso).status = 400 ∧
    (POST_storage req nowIso).writes = [] ∧
    (POST_transcribe req o).status = 400 ∧
    (POST_transcribe req o).forwarded = false ∧
    (POST_transcribe req o).writes = [] := by
  simp [POST_storage, POST_transcribe, hf, ht]

/-- C3 witness: a text file is rejected by both variants with no side
effects. -/
theorem c3_nonaudio_rejected_witness :
    (POST_storage { file := some textFile } isoSample).status = 400 ∧
    (POST_storage { file := some textFile } isoSample).writes = [] ∧
    (POST_transcribe { file := some textFile } (.networkError "refused")).status = 400 ∧
    (POST_transcribe { file := some textFile } (.networkError "refused")).forwarded = false ∧
    (POST_transcribe { file := some textFile } (.networkError "refused")).writes = [] :=
  c3_nonaudio_rejected _ textFile _ isoSample rfl (by decide)

/-- C2 counterexample: the claim says both variants reject oversized files
before any filesystem write, but the storage variant has no size check at
all: an audio file above the 25 MB ceiling is accepted with status 200 and
written to storage. -/
theorem c2_counterexample :
    maxSize < oversizedAudio.size ∧
    (POST_storage { file := some oversizedAudio } isoSample).status = 200 ∧
    (POST_storage { file := some oversizedAudio } isoSample).writes ≠ [] := by decide

/-- C2 (amended): only the transcription variant enforces a size ceiling:
it rejects a file above 25 MB with a client error, no write and no
outbound call; the storage variant performs no size check. -/
theorem c2_transcribe_oversize_rejected (req : UploadRequest) (f : UploadFile)
    (o : FetchOutcome) (hf : req.file = some f) (hs : maxSize < f.size) :
    (POST_transcribe req o).status = 400 ∧
    (POST_transcribe req o).forwarded = false ∧
    (POST_transcribe req o).writes = [] := by
  by_cases ht : jsStartsWith f.type "audio/"
  · simp [POST_transcribe, hf, ht, hs]
  · simp [POST_transcribe, hf, ht]

/-- C2 witness: the oversized audio file is rejected by the transcription
variant before any outbound call. -/
theorem c2_transcribe_oversize_rejected_witness :
    (POST_transcribe { file := some oversizedAudio } (.networkError "x")).status = 400 ∧
    (POST_transcribe { file := some oversizedAudio } (.networkError "x")).forwarded = false ∧
    (POST_transcribe { file := some oversizedAudio } (.networkError "x")).writes = [] :=
  c2_transcribe_oversize_rejected _ oversizedAudio _ rfl (by decide)

/-- C9 counterexample: the claim says the stored name carries the original
extension, but the storage variant always appends ".webm": a file named
song.mp3 is stored under the timestamp name ending in ".webm", not the
name the claim prescribes. -/
theorem c9_counterexample :
    extOf mp3File.name = ".mp3" ∧
    (POST_storage { file := some mp3File } isoSample).writes
      = [replaceColonsDots isoSample ++ ".webm"] ∧
    (POST_storage { file := some mp3File } isoSample).writes
      ≠ [replaceColonsDots isoSample ++ extOf mp3File.name] := by decide

/-- C9 (amended): every persisted upload is stored under the current
timestamp with colons and periods replaced by hyphens, always suffixed
with the fixed extension ".webm"; the original-or-inferred extension only
enters the client-side filename, where a name without a period infers
".mp3". -/
theorem c9_storage_filename (req : UploadRequest) (f : UploadFile)
    (nowIso : String) (hf : req.file = some f)
    (ht : jsStartsWith f.type "audio/" = true) :
    (POST_storage req nowIso).writes = [replaceColonsDots nowIso ++ ".webm"] ∧
    (∀ name : String, name.data.contains '.' = false → extOf name = ".mp3") := by
  constructor
  · simp [POST_storage, hf, ht]
  · intro name h
    unfold extOf
    rw [h]
    simp

/-- C9 witness: the mp3-named audio file is stored under the hyphenated
timestamp with the ".webm" suffix. -/
theorem c9_storage_filename_witness :
    (POST_storage { file := some mp3File } isoSample).writes
      = [replaceColonsDots isoSample ++ ".webm"] :=
  (c9_storage_filename _ mp3File isoSample rfl (by decide)).1

/-- Inductive invariant of the recording state machine: the elapsed time
never exceeds the ceiling, the interval timer only runs while recording,
and an active or paused session is strictly below the ceiling. -/
def RecInv (s : RecState) : Prop :=
  s.duration ≤ maxDuration ∧
  (s.timerOn = true → s.status = .recording) ∧
  ((s.status = .recording ∨ s.status = .paused) → s.duration < maxDuration)

theorem recInv_init : RecInv recInit := by
  refine ⟨by decide, by decide, by decide⟩

set_option linter.unnecessarySeqFocus false in
theorem recInv_step (s : RecState) (e : RecEvent) (h : RecInv s) :
    RecInv (recStep s e) := by
  obtain ⟨h1, h2, h3⟩ := h
  cases e with
  | start =>
    by_cases hs : s.status = .recording
    · simpa [recStep, hs] using ⟨h1, h2, h3⟩
    · refine ⟨?_, ?_, ?_⟩ <;> simp [recStep, hs, maxDuration]
  | pause =>
    by_cases hs : s.status = .recording
    · refine ⟨?_, ?_, ?_⟩ <;> simp [recStep, hs]
      · exact h1
      · exact h3 (Or.inl hs)
    · simpa [recStep, hs] using ⟨h1, h2, h3⟩
  | resume =>
    by_cases hs : s.status = .paused
    · refine ⟨?_, ?_, ?_⟩ <;> simp [recStep, hs]
      · exact h1
      · exact h3 (Or.inr hs)
    · simpa [recStep, hs] using ⟨h1, h2, h3⟩
  | stop =>
    by_cases hs : s.status = .recording ∨ s.status = .paused
    · refine ⟨?_, ?_, ?_⟩ <;> simp [recStep, stopRecording, hs]
      exact h1
    · simpa [recStep, stopRecording, hs] using ⟨h1, h2, h3⟩
  | tick =>
    by_cases htm : s.timerOn = true
    · have hrec : s.status = .recording := h2 htm
      have hlt : s.duration < maxDuration := h3 (Or.inl hrec)
      by_cases hceil : maxDuration ≤ s.duration + 1
      · refine ⟨?_, ?_, ?_⟩ <;>
          simp [recStep, htm, hceil, stopRecording, hrec] <;> omega
      · refine ⟨?_, ?_, ?_⟩ <;> simp [recStep, htm, hceil, hrec] <;> omega
    · have htm2 : s.timerOn = false := by
        cases hx : s.timerOn
        · rfl
        · exact absurd hx htm
      simpa [recStep, htm2] using ⟨h1, h2, h3⟩

theorem recReachable_inv (s : RecState) (h : RecReachable s) : RecInv s := by
  induction h with
  | init => exact recInv_init
  | step e _ ih => exact recInv_step _ e ih

/-- C1: in every reachable state of the recording state machine the elapsed
seconds never exceed the 300-second ceiling, and the one-second tick whose
incremented value reaches the ceiling auto-invokes stop, landing in the
stopped state with the timer released and the elapsed time set to the
incremented value. -/
theorem c1_elapsed_le_ceiling (s : RecState) (h : RecReachable s) :
    s.duration ≤ maxDuration ∧
    (s.timerOn = true → maxDuration ≤ s.duration + 1 →
      (recStep s .tick).status = .stopped ∧
      (recStep s .tick).timerOn = false ∧
      (recStep s .tick).duration = s.duration + 1) := by
  have inv := recReachable_inv s h
  refine ⟨inv.1, ?_⟩
  intro htm hceil
  have hrec : s.status = .recording := inv.2.1 htm
  refine ⟨?_, ?_, ?_⟩ <;> simp [recStep, htm, hceil, stopRecording, hrec]

/-- C1 witness: the state reached by pressing Start satisfies the elapsed
time bound. -/
theorem c1_elapsed_le_ceiling_witness :
    (recStep recInit .start).duration ≤ maxDuration :=
  (c1_elapsed_le_ceiling (recStep recInit .start)
    (RecReachable.step .start RecReachable.init)).1

/-- Reduction of the transcription handler on a valid audio request with a
failing fetch outcome: every such run lands in the catch branch. -/
theorem POST_transcribe_failed (req : UploadRequest) (f : UploadFile)
    (o : FetchOutcome) (hf : req.file = some f)
    (ht : jsStartsWith f.type "audio/" = true) (hs : f.size ≤ maxSize)
    (hfail : fetchFailed o = true) :
    ∃ msg, POST_transcribe req o = catchEnvelope msg true := by
  have hsn : ¬ maxSize < f.size := not_lt.mpr hs
  cases o with
  | networkError m => exact ⟨m, by simp [POST_transcribe, hf, ht, hsn]⟩
  | response status parse =>
    cases parse with
    | parsed t =>
      have hbad : responseOk status = false := by simpa [fetchFailed] using hfail
      exact ⟨pythonErrorMessage status t,
        by simp [POST_transcribe, hf, ht, hsn, hbad]⟩
    | malformed m =>
      by_cases hok : responseOk status = true
      · exact ⟨m, by simp [POST_transcribe, hf, ht, hsn, hok]⟩
      · have hbad : responseOk status = false := by
          cases hx : responseOk status
          · rfl
          · exact absurd hx hok
        exact ⟨pythonErrorMessage status [],
          by simp [POST_transcribe, hf, ht, hsn, hbad]⟩

/-- C4: every downstream failure of the transcription relay, namely a
rejected fetch, a non-2xx external response, or a malformed JSON body, is
caught and answered with status 500 and a body whose success field is
false and whose error field is a string; the handler itself always returns
a response instead of propagating the exception. -/
theorem c4_downstream_failure_envelope (req : UploadRequest) (f : UploadFile)
    (o : FetchOutcome) (hf : req.file = some f)
    (ht : jsStartsWith f.type "audio/" = true) (hs : f.size ≤ maxSize)
    (hfail : fetchFailed o = true) :
    (POST_transcribe req o).status = 500 ∧
    getField (POST_transcribe req o).body "success" = some (.jbool false) ∧
    ∃ msg, getField (POST_transcribe req o).body "error" = some (.jstr msg) := by
  obtain ⟨m, heq⟩ := POST_transcribe_failed req f o hf ht hs hfail
  rw [heq]
  obtain ⟨a, b, c⟩ := catchEnvelope_fields m true
  exact ⟨a, b, ⟨_, c⟩⟩

/-- C4 witness: an external HTTP 500 is relayed as a 500 failure
envelope. -/
theorem c4_downstream_failure_envelope_witness :
    (POST_transcribe { file := some goodAudio } (.response 500 (.parsed []))).status = 500 ∧
    getField (POST_transcribe { file := some goodAudio }
        (.response 500 (.parsed []))).body "success" = some (.jbool false) :=
  let h := c4_downstream_failure_envelope { file := some goodAudio } goodAudio
    (.response 500 (.parsed [])) rfl (by decide) (by decide) (by decide)
  ⟨h.1, h.2.1⟩

/-- C5 counterexample: an external 2xx response whose JSON body contains a
text field together with a success field of false is relayed with the text
unchanged but with a success field of false, not the success true the
claim requires. -/
theorem c5_counterexample :
    responseOk 200 = true ∧
    getField sneakyBody "text" = some (.jstr "hello") ∧
    getField (POST_transcribe { file := some goodAudio }
        (.response 200 (.parsed sneakyBody))).body "text" = some (.jstr "hello") ∧
    getField (POST_transcribe { file := some goodAudio }
        (.response 200 (.parsed sneakyBody))).body "success"
      ≠ some (.jbool true) := by decide

/-- C5 (amended): for every successful 2xx external response whose parsed
JSON body contains a text field and no success field of its own, the
relayed envelope answers with status 200, a success field of true, and the
same text value unchanged; when the external body does bind success, that
value overwrites the flag. -/
theorem c5_success_envelope (req : UploadRequest) (f : UploadFile)
    (status : Nat) (t : JObject) (hf : req.file = some f)
    (ht : jsStartsWith f.type "audio/" = true) (hs : f.size ≤ maxSize)
    (hok : responseOk status = true) (hns : getField t "success" = none) :
    (POST_transcribe req (.response status (.parsed t))).status = 200 ∧
    getField (POST_transcribe req (.response status (.parsed t))).body "success"
      = some (.jbool true) ∧
    ∀ v, getField t "text" = some v →
      getField (POST_transcribe req (.response status (.parsed t))).body "text"
        = some v := by
  rw [POST_transcribe_ok req f status t hf ht hs hok]
  refine ⟨rfl, getField_envelope_success_none t _ hns, ?_⟩
  intro v hv
  exact getField_envelope_text t _ v hv

/-- C5 witness: the concrete body binding only text hello is relayed with
success true and the same text. -/
theorem c5_success_envelope_witness :
    (POST_transcribe { file := some goodAudio }
        (.response 200 (.parsed [("text", .jstr "hello")]))).status = 200 ∧
    getField (POST_transcribe { file := some goodAudio }
        (.response 200 (.parsed [("text", .jstr "hello")]))).body "success"
      = some (.jbool true) ∧
    getField (POST_transcribe { file := some goodAudio }
        (.response 200 (.parsed [("text", .jstr "hello")]))).body "text"
      = some (.jstr "hello") :=
  let h := c5_success_envelope { file := some goodAudio } goodAudio 200
    [("text", .jstr "hello")] rfl (by decide) (by decide) (by decide) (by decide)
  ⟨h.1, h.2.1, h.2.2 _ (by decide)⟩

/-- C10: the transcription relay builds its success response by spreading
the entire external JSON body after the success true field, so whenever
the external 2xx body itself binds a success value, that value overwrites
the relay flag in the envelope while the HTTP status stays 200. -/
theorem c10_success_field_overwritten (req : UploadRequest) (f : UploadFile)
    (status : Nat) (t : JObject) (v : JValue) (hf : req.file = some f)
    (ht : jsStartsWith f.type "audio/" = true) (hs : f.size ≤ maxSize)
    (hok : responseOk status = true) (hv : getField t "success" = some v) :
    (POST_transcribe req (.response status (.parsed t))).status = 200 ∧
    getField (POST_transcribe req (.response status (.parsed t))).body "success"
      = some v := by
  rw [POST_transcribe_ok req f status t hf ht hs hok]
  exact ⟨rfl, getField_envelope_success_some t _ v hv⟩

/-- C10 witness: the external body binding success false is relayed as an
HTTP 200 envelope whose success field is false. -/
theorem c10_success_field_overwritten_witness :
    (POST_transcribe { file := some goodAudio }
        (.response 200 (.parsed sneakyBody))).status = 200 ∧
    getField (POST_transcribe { file := some goodAudio }
        (.response 200 (.parsed sneakyBody))).body "success"
      = some (.jbool false) :=
  c10_success_field_overwritten { file := some goodAudio } goodAudio 200
    sneakyBody (.jbool false) rfl (by decide) (by decide) (by decide) (by decide)

/-- Exhaustive branch analysis of the transcription handler: every run is
one of the three validation rejections, the catch envelope, or the success
envelope. -/
theorem POST_transcribe_cases (req : UploadRequest) (o : FetchOutcome) :
    POST_transcribe req o =
      { status := 400,
        body := [("success", .jbool false), ("error", .jstr "No file uploaded")],
        writes := [], forwarded := false } ∨
    POST_transcribe req o =
      { status := 400,
        body := [("success", .jbool false),
                 ("error", .jstr "Invalid file type. Only audio files are allowed.")],
        writes := [], forwarded := false } ∨
    POST_transcribe req o =
      { status := 400,
        body := [("success", .jbool false),
                 ("error", .jstr "File too large. Maximum size is 25MB.")],
        writes := [], forwarded := false } ∨
    (∃ m, POST_transcribe req o = catchEnvelope m true) ∨
    (∃ t, POST_transcribe req o =
      { status := 200,
        body := ("success", .jbool true) :: t
                  ++ [("message", .jstr "File transcribed successfully")],
        writes := [], forwarded := true }) := by
  obtain ⟨file⟩ := req
  cases file with
  | none => exact Or.inl rfl
  | some f =>
    by_cases ht : jsStartsWith f.type "audio/"
    · by_cases hs : maxSize < f.size
      · refine Or.inr (Or.inr (Or.inl ?_))
        simp [POST_transcribe, ht, hs]
      · cases o with
        | networkError m =>
          refine Or.inr (Or.inr (Or.inr (Or.inl ⟨m, ?_⟩)))
          simp [POST_transcribe, ht, hs]
        | response status parse =>
          by_cases hok : responseOk status = true
          · cases parse with
            | parsed t =>
              refine Or.inr (Or.inr (Or.inr (Or.inr ⟨t, ?_⟩)))
              simp [POST_transcribe, ht, hs, hok]
            | malformed m =>
              refine Or.inr (Or.inr (Or.inr (Or.inl ⟨m, ?_⟩)))
              simp [POST_transcribe, ht, hs, hok]
          · have hbad : responseOk status = false := by
              cases hx : responseOk status
              · rfl
              · exact absurd hx hok
            refine Or.inr (Or.inr (Or.inr (Or.inl ⟨?_, ?_⟩)))
            · exact pythonErrorMessage status
                (match parse with | .parsed t => t | .malformed _ => [])
            · cases parse <;> simp [POST_transcribe, ht, hs, hbad]
    · refine Or.inr (Or.inl ?_)
      simp [POST_transcribe, ht]

/-- Exhaustive branch analysis of the storage handler: a run is one of the
two validation rejections or the success response. -/
theorem POST_storage_cases (req : UploadRequest) (nowIso : String) :
    POST_storage req nowIso =
      { status := 400, body := [("error", .jstr "No file uploaded")],
        writes := [], forwarded := false } ∨
    POST_storage req nowIso =
      { status := 400, body := [("error", .jstr "Invalid file type")],
        writes := [], forwarded := false } ∨
    (POST_storage req nowIso).status = 200 := by
  obtain ⟨file⟩ := req
  cases file with
  | none => exact Or.inl rfl
  | some f =>
    by_cases ht : jsStartsWith f.type "audio/"
    · refine Or.inr (Or.inr ?_)
      simp [POST_storage, ht]
    · refine Or.inr (Or.inl ?_)
      simp [POST_storage, ht]

/-- C6 counterexample: the claim requires every failing response body to
carry a success false field, but the storage variant missing-file
rejection answers 400 with a body that has an error string and no success
field at all. -/
theorem c6_counterexample :
    (POST_storage { file := none } isoSample).status = 400 ∧
    getField (POST_storage { file := none } isoSample).body "error"
      = some (.jstr "No file uploaded") ∧
    getField (POST_storage { file := none } isoSample).body "success" = none := by
  decide

/-- C6 (amended): every failing transcription-variant response has a body
binding success to false and error to a string, with status 400 for
validation failures and 500 for unexpected ones; the storage variant
failing responses carry an error string with the same status split but no
success field, in its missing-file and wrong-type branches as well as in
its catch-all branch. -/
theorem c6_failure_envelopes (req : UploadRequest) (o : FetchOutcome)
    (nowIso : String) :
    ((POST_transcribe req o).status ≠ 200 →
      ((POST_transcribe req o).status = 400 ∨ (POST_transcribe req o).status = 500) ∧
      getField (POST_transcribe req o).body "success" = some (.jbool false) ∧
      ∃ msg, getField (POST_transcribe req o).body "error" = some (.jstr msg)) ∧
    ((POST_storage req nowIso).status ≠ 200 →
      (POST_storage req nowIso).status = 400 ∧
      getField (POST_storage req nowIso).body "success" = none ∧
      ∃ msg, getField (POST_storage req nowIso).body "error" = some (.jstr msg)) ∧
    (POST_storage_catch.status = 500 ∧
      getField POST_storage_catch.body "success" = none ∧
      ∃ msg, getField POST_storage_catch.body "error" = some (.jstr msg)) := by
  refine ⟨?_, ?_, ?_, ?_, ⟨_, rfl⟩⟩
  · intro hne
    rcases POST_transcribe_cases req o with h | h | h | ⟨m, h⟩ | ⟨t, h⟩
    · rw [h]
      exact ⟨Or.inl rfl, rfl, _, rfl⟩
    · rw [h]
      exact ⟨Or.inl rfl, rfl, _, rfl⟩
    · rw [h]
      exact ⟨Or.inl rfl, rfl, _, rfl⟩
    · rw [h]
      obtain ⟨a, b, c⟩ := catchEnvelope_fields m true
      exact ⟨Or.inr a, b, _, c⟩
    · rw [h] at hne
      exact absurd rfl hne
  · intro hne
    rcases POST_storage_cases req nowIso with h | h | h
    · rw [h]
      exact ⟨rfl, rfl, _, rfl⟩
    · rw [h]
      exact ⟨rfl, rfl, _, rfl⟩
    · exact absurd h hne
  · rfl
  · rfl

/-- C6 witness: the transcription-variant missing-file rejection carries
the required envelope shape. -/
theorem c6_failure_envelopes_witness :
    ((POST_transcribe { file := none } (.networkError "x")).status = 400 ∨
      (POST_transcribe { file := none } (.networkError "x")).status = 500) ∧
    getField (POST_transcribe { file := none } (.networkError "x")).body "success"
      = some (.jbool false) ∧
    ∃ msg, getField (POST_transcribe { file := none } (.networkError "x")).body "error"
      = some (.jstr msg) :=
  (c6_failure_envelopes { file := none } (.networkError "x") isoSample).1 (by decide)

/-- C7 counterexample: the claim says every path that starts a relay call
is blocked while the transcribing flag is set, but dropping an audio file
while a transcription is in flight starts another relay call: the drop
handler never consults the flag. -/
theorem c7_counterexample :
    busyState.isTranscribing = true ∧
    (handleDrop busyState [goodAudio]).2 = true := by decide

/-- C7 (amended): the Transcribe button is enabled only when an artifact
exists and no transcription is in flight, and the file-picker input is
disabled while the flag is set, but the drag-and-drop path is not guarded
by the flag; every path that does start a relay call sets the flag, and
every completion path, success or error, clears it. -/
theorem c7_transcribing_flag (st : UIState) (f : Option UploadFile)
    (r : RelayReply) :
    (st.isTranscribing = true → (transcribeButtonClick st).2 = false) ∧
    (st.isTranscribing = true → (fileInputSelect st f).2 = false) ∧
    ((transcribeButtonClick st).2 = true →
      st.hasBlob = true ∧ (transcribeButtonClick st).1.isTranscribing = true) ∧
    ((handleFileUpload st f).2 = true →
      (handleFileUpload st f).1.isTranscribing = true) ∧
    ((uploadRecording st).2 = true → (uploadRecording st).1.isTranscribing = true) ∧
    (relayComplete st r).isTranscribing = false := by
  refine ⟨?_, ?_, ?_, ?_, ?_, ?_⟩
  · intro h
    simp [transcribeButtonClick, h]
  · intro h
    simp [fileInputSelect, h]
  · intro h
    by_cases hc : st.hasBlob ∧ !st.isTranscribing
    · refine ⟨?_, ?_⟩
      · exact hc.1
      · by_cases hb : st.hasBlob = true
        · simp [transcribeButtonClick, hc, uploadRecording, hb]
        · exact absurd hc.1 hb
    · rw [transcribeButtonClick, if_neg hc] at h
      exact absurd h (by simp)
  · intro h
    cases f with
    | none => exact absurd h (by simp [handleFileUpload])
    | some file =>
      by_cases hs : maxSize < file.size
      · rw [handleFileUpload, if_pos hs] at h
        exact absurd h (by simp)
      · simp [handleFileUpload, hs]
  · intro h
    by_cases hb : st.hasBlob = true
    · simp [uploadRecording, hb]
    · have hb2 : st.hasBlob = false := by
        cases hx : st.hasBlob
        · rfl
        · exact absurd hx hb
      simp [uploadRecording, hb2] at h
  · cases r <;> rfl

/-- C7 witness: with a transcription in flight the Transcribe button
starts no relay call. -/
theorem c7_transcribing_flag_witness :
    (transcribeButtonClick busyState).2 = false :=
  (c7_transcribing_flag busyState none RelayReply.networkError).1 rfl

end VoiceRecorder
